import Mathlib

/-!
Shallow embedding of the CSV-to-SQL-Server pipeline in `final.py`
(DAG `Load_csv_file2`): the Loader task `load_data` and the Schema
Ensurer task `create_table_if_missed`.

Modelling conventions:
- a parsed CSV is its header list plus rows of cells; a cell is
  `Option String`, where `none` is a pandas missing value (NaN);
- pandas `str(c).strip().lower()` header normalisation becomes `strip`
  and `lower` below, written over `String.data` so they compute;
- `pd.to_datetime(x, errors := coerce).dt.date` is an abstract date
  parser `String → Option Nat` (the parsing internals belong to the
  library, not this program); a parse failure or missing cell is `none`;
- the pyodbc connection, cursor and commits become an explicit
  `LoadOutcome`/`BatchRun` trace: which batches were executed, which
  committed, whether a connection was opened, and the rows that are
  durably inserted; an injected `failOn : Nat → Bool` says whether
  `cur.executemany` raises on the batch with the given 0-based index;
- the SQL-Server catalog for `create_table_if_missed` is a list of
  (table name, column list) pairs; `OBJECT_ID(t, U) IS NULL` is a name
  lookup, and the guarded `CREATE TABLE` appends the fixed schema.
-/

namespace ETL

/-- Python `str.strip` on the character list: drop whitespace at both ends. -/
def trimChars (cs : List Char) : List Char :=
  ((cs.dropWhile Char.isWhitespace).reverse.dropWhile Char.isWhitespace).reverse

/-- Python `str.strip()` (whitespace trim at both ends), written over
`String.data` so that it evaluates by `decide`. -/
def strip (s : String) : String := ⟨trimChars s.data⟩

/-- Python `str.lower()` (per-character lowercasing). -/
def lower (s : String) : String := ⟨s.data.map Char.toLower⟩

/-- Header normalisation of `final.py` line 63: `str(c).strip().lower()`. -/
def normalizeHeader (s : String) : String := lower (strip s)

/-- Required column set of `final.py` line 65:
`expected = {customer_name, address, birth_date}`. -/
def expectedCols : List String := ["customer_name", "address", "birth_date"]

/-- Fixed destination table name, `final.py` line 12. -/
def TARGET_TABLE : String := "dbo.uinque_values"

/-- An in-memory parsed CSV: the raw header names and the data rows.
A cell is `none` when pandas read it as missing (NaN). -/
structure Csv where
  headers : List String
  rows : List (List (Option String))
deriving DecidableEq, Repr

/-- One prepared record, in the tuple order of the insert statement
(`final.py` lines 81 and 90): customer_name, address, birth_date,
airflow_run_id. Dates are abstract day numbers. -/
structure Record where
  customer_name : String
  address : Option String
  birth_date : Option Nat
  airflow_run_id : String
deriving DecidableEq, Repr

/-- Pandas `astype(str)` on one cell: a missing value (NaN) becomes the
literal string "nan", `final.py` line 75. -/
def strOfCell : Option String → String
  | none => "nan"
  | some s => s

/-- Column access `df[name]` for one row: look the name up in the
normalised header list and read that position of the row (a short row is
padded with missing values, as pandas does). -/
def cellAt (hs : List String) (row : List (Option String)) (name : String) :
    Option String :=
  match hs.indexOf? name with
  | some i => row.getD i none
  | none => none

/-- Per-row transform of `final.py` lines 70-75: project to the three
required columns, date-parse birth_date with coercion to missing, stamp
the run id, stringify and strip customer_name. -/
def transformRow (parseDate : String → Option Nat) (runId : String)
    (hs : List String) (row : List (Option String)) : Record :=
  { customer_name := strip (strOfCell (cellAt hs row "customer_name"))
    address := cellAt hs row "address"
    birth_date := (cellAt hs row "birth_date").bind parseDate
    airflow_run_id := runId }

/-- All rows of the file after the projection/transform step. -/
def allRecords (parseDate : String → Option Nat) (runId : String)
    (csv : Csv) : List Record :=
  csv.rows.map (transformRow parseDate runId (csv.headers.map normalizeHeader))

/-- Rows surviving the cleaning filter of `final.py` line 76:
`df = df[df[customer_name] != ""]`. -/
def cleanedRecords (parseDate : String → Option Nat) (runId : String)
    (csv : Csv) : List Record :=
  (allRecords parseDate runId csv).filter (fun r => r.customer_name != "")

/-- The capped record list of `final.py` line 78: `df = df.head(50)`. -/
def preparedRecords (parseDate : String → Option Nat) (runId : String)
    (csv : Csv) : List Record :=
  (cleanedRecords parseDate runId csv).take 50

/-- Missing required columns, `final.py` line 66:
`expected - set(df.columns)` over the normalised header names. -/
def missingCols (csv : Csv) : List String :=
  expectedCols.filter (fun c => !((csv.headers.map normalizeHeader).contains c))

/-- Errors the Loader can raise: the schema mismatch of `final.py`
line 68 (carrying the missing columns and the columns actually found)
and a batch-insert failure from `cur.executemany`. -/
inductive LoadErr where
  | schemaMismatch (missing : List String) (found : List String)
  | insertError
deriving DecidableEq, Repr

/-- Trace of the batch-insert loop of `final.py` lines 101-105:
the rows durably committed, how many batches committed, how many loop
iterations executed an insert, and whether an insert raised. -/
structure BatchRun where
  committed : List Record
  commits : Nat
  attempts : Nat
  failed : Bool
deriving DecidableEq, Repr

/-- One loop iteration per remaining batch count `n`; batch `j` is
`records[50*j : 50*j + 50]`, exactly the slices of
`for i in range(0, total, batch_size)` with `batch_size = 50`.
If `failOn j` the insert raises: nothing further commits and the loop
aborts; otherwise the batch is inserted and committed before the next
iteration. -/
def runBatchesAux (failOn : Nat → Bool) (recs : List Record) :
    Nat → Nat → BatchRun
  | 0, _ => ⟨[], 0, 0, false⟩
  | n + 1, j =>
    if failOn j then ⟨[], 0, 1, true⟩
    else
      let batch := (recs.drop (50 * j)).take 50
      let rest := runBatchesAux failOn recs n (j + 1)
      ⟨batch ++ rest.committed, rest.commits + 1, rest.attempts + 1, rest.failed⟩

/-- The whole batch loop: `range(0, total, 50)` has `⌈total/50⌉`
iterations, starting at batch index 0. -/
def runBatches (failOn : Nat → Bool) (recs : List Record) : BatchRun :=
  runBatchesAux failOn recs ((recs.length + 49) / 50) 0

/-- Observable outcome of one `load_data` call: the error propagated to
the caller (if any), whether a database connection was opened for
inserts, the rows committed to the destination, the commit and
loop-iteration counts, and the log lines emitted. -/
structure LoadOutcome where
  error : Option LoadErr
  connOpened : Bool
  inserted : List Record
  reportedCount : Nat
  commits : Nat
  batchAttempts : Nat
  logs : List String
deriving DecidableEq, Repr

/-- The Loader task `load_data` of `final.py` lines 56-107, as a pure
function of the parsed CSV, the abstract date parser, the Airflow
`run_id`, and the injected insert-failure pattern `failOn`. -/
def load_data (parseDate : String → Option Nat) (run_id : String)
    (failOn : Nat → Bool) (csv : Csv) : LoadOutcome :=
  let cols := csv.headers.map normalizeHeader
  let missing := missingCols csv
  if missing.isEmpty then
    let records := preparedRecords parseDate run_id csv
    if records.isEmpty then
      { error := none, connOpened := false, inserted := [],
        reportedCount := records.length, commits := 0, batchAttempts := 0,
        logs := ["Loading data from CSV", "Missing columns check",
                 "Prepared " ++ toString records.length ++ " records (first 50).",
                 "No records to insert."] }
    else
      let r := runBatches failOn records
      { error := if r.failed then some LoadErr.insertError else none,
        connOpened := true, inserted := r.committed,
        reportedCount := records.length, commits := r.commits,
        batchAttempts := r.attempts,
        logs := ["Loading data from CSV", "Missing columns check",
                 "Prepared " ++ toString records.length ++ " records (first 50)."] }
  else
    { error := some (LoadErr.schemaMismatch missing cols), connOpened := false,
      inserted := [], reportedCount := 0, commits := 0, batchAttempts := 0,
      logs := ["Loading data from CSV", "Missing columns check"] }

/-- Column types of the destination table DDL, `final.py` lines 39-46. -/
inductive SqlType where
  | intT
  | nvarchar (len : Nat)
  | dateT
  | datetime2T
deriving DecidableEq, Repr

/-- One column of the destination table DDL. -/
structure ColumnDef where
  name : String
  ty : SqlType
  nullable : Bool
  identity : Bool
  primaryKey : Bool
  hasDefault : Bool
deriving DecidableEq, Repr

/-- The destination schema of the `CREATE TABLE` statement,
`final.py` lines 39-46. -/
def targetSchema : List ColumnDef :=
  [⟨"id", SqlType.intT, false, true, true, false⟩,
   ⟨"customer_name", SqlType.nvarchar 150, false, false, false, false⟩,
   ⟨"address", SqlType.nvarchar 250, true, false, false, false⟩,
   ⟨"birth_date", SqlType.dateT, true, false, false, false⟩,
   ⟨"airflow_run_id", SqlType.nvarchar 250, true, false, false, false⟩,
   ⟨"loaded_at", SqlType.datetime2T, true, false, false, true⟩]

/-- A database catalog: the user tables with their column lists. -/
structure DbCatalog where
  tables : List (String × List ColumnDef)
deriving DecidableEq, Repr

/-- Existence test `OBJECT_ID(name, U) IS NOT NULL` over the catalog. -/
def object_id (cat : DbCatalog) (name : String) : Bool :=
  cat.tables.any (fun t => t.1 == name)

/-- The Schema Ensurer task `create_table_if_missed` of `final.py`
lines 34-53: execute the guarded DDL of lines 36-48 against the catalog.
Returns the new catalog and the number of `CREATE TABLE` statements that
actually ran. -/
def create_table_if_missed (cat : DbCatalog) : DbCatalog × Nat :=
  if object_id cat TARGET_TABLE then (cat, 0)
  else (⟨cat.tables ++ [(TARGET_TABLE, targetSchema)]⟩, 1)

/-- A date parser that fails on every value, for concrete instances. -/
def noDate : String → Option Nat := fun _ => none

/-- An insert executor that never fails, for concrete instances. -/
def noFail : Nat → Bool := fun _ => false

/-- A well-formed header row for concrete instances. -/
def okHeaders : List String := ["customer_name", "address", "birth_date"]

/-- A sample data row with a non-blank name, for concrete instances. -/
def rowA : List (Option String) := [some "a", none, none]

/-- A 51-row CSV whose rows all survive cleaning. -/
def csv51 : Csv := ⟨okHeaders, List.replicate 51 rowA⟩

/-- A CSV whose header omits birth_date. -/
def csvNoBirth : Csv := ⟨[" Customer_Name ", "ADDRESS"], [[some "a", some "b"]]⟩

/-- A CSV with a valid header and zero data rows. -/
def csvEmpty : Csv := ⟨okHeaders, []⟩

/-- A CSV whose single row has a missing (NaN) customer_name and an
unparseable birth_date. -/
def csvNan : Csv := ⟨okHeaders, [[none, some "b", some "not-a-date"]]⟩

/-- A record list longer than one batch, for the batch-loop instances. -/
def recs60 : List Record := List.replicate 60 ⟨"a", none, none, "r"⟩

theorem runBatchesAux_committed_eq (failOn : Nat → Bool) (recs : List Record) :
    ∀ n j, (runBatchesAux failOn recs n j).committed =
      (recs.drop (50 * j)).take (50 * (runBatchesAux failOn recs n j).commits) := by
  intro n
  induction n with
  | zero => intro j; simp [runBatchesAux]
  | succ n ih =>
    intro j
    by_cases hf : failOn j
    · simp [runBatchesAux, hf]
    · simp only [runBatchesAux, hf, Bool.false_eq_true, if_false]
      have hm : 50 * ((runBatchesAux failOn recs n (j + 1)).commits + 1)
          = 50 + 50 * (runBatchesAux failOn recs n (j + 1)).commits := by ring
      rw [hm, List.take_add]
      congr 1
      rw [ih (j + 1), List.drop_drop]
      have hj : 50 * j + 50 = 50 * (j + 1) := by ring
      rw [hj]

theorem runBatchesAux_bounds (failOn : Nat → Bool) (recs : List Record) :
    ∀ n j, (runBatchesAux failOn recs n j).commits ≤ n ∧
      (runBatchesAux failOn recs n j).attempts ≤ n := by
  intro n
  induction n with
  | zero => intro j; simp [runBatchesAux]
  | succ n ih =>
    intro j
    by_cases hf : failOn j
    · simp [runBatchesAux, hf]
    · simp only [runBatchesAux, hf, Bool.false_eq_true, if_false]
      have := ih (j + 1)
      omega

theorem runBatchesAux_nofail (recs : List Record) :
    ∀ n j, runBatchesAux noFail recs n j =
      ⟨(recs.drop (50 * j)).take (50 * n), n, n, false⟩ := by
  intro n
  induction n with
  | zero => intro j; simp [runBatchesAux]
  | succ n ih =>
    intro j
    simp only [runBatchesAux, noFail, Bool.false_eq_true, if_false, ih (j + 1)]
    have hm : 50 * (n + 1) = 50 + 50 * n := by ring
    refine congrArg (fun c => BatchRun.mk c (n + 1) (n + 1) false) ?_
    rw [hm, List.take_add]
    congr 1
    rw [List.drop_drop]
    have hj : 50 * j + 50 = 50 * (j + 1) := by ring
    rw [hj]

theorem runBatches_nofail (recs : List Record) :
    runBatches noFail recs =
      ⟨recs, (recs.length + 49) / 50, (recs.length + 49) / 50, false⟩ := by
  rw [runBatches, runBatchesAux_nofail]
  have h1 : recs.drop (50 * 0) = recs := by simp
  have h2 : recs.length ≤ 50 * ((recs.length + 49) / 50) := by omega
  rw [h1, List.take_of_length_le h2]

theorem runBatchesAux_fail (failOn : Nat → Bool) (recs : List Record) :
    ∀ m n j, (∀ i, i < m → failOn (j + i) = false) → failOn (j + m) = true →
      m < n →
      runBatchesAux failOn recs n j =
        ⟨(recs.drop (50 * j)).take (50 * m), m, m + 1, true⟩ := by
  intro m
  induction m with
  | zero =>
    intro n j _ hm hn
    obtain ⟨n, rfl⟩ : ∃ k, n = k + 1 := ⟨n - 1, by omega⟩
    have hj : failOn j = true := by simpa using hm
    simp [runBatchesAux, hj]
  | succ m ih =>
    intro n j hlt hm hn
    obtain ⟨n, rfl⟩ : ∃ k, n = k + 1 := ⟨n - 1, by omega⟩
    have hj : failOn j = false := by simpa using hlt 0 (by omega)
    have hrest : runBatchesAux failOn recs n (j + 1) =
        ⟨(recs.drop (50 * (j + 1))).take (50 * m), m, m + 1, true⟩ := by
      refine ih n (j + 1) (fun i hi => ?_) ?_ (by omega)
      · have h1 := hlt (i + 1) (by omega)
        have h2 : j + 1 + i = j + (i + 1) := by omega
        rw [h2]; exact h1
      · have h2 : j + 1 + m = j + (m + 1) := by omega
        rw [h2]; exact hm
    simp only [runBatchesAux, hj, Bool.false_eq_true, if_false, hrest]
    refine congrArg (fun c => BatchRun.mk c (m + 1) (m + 2) true) ?_
    have hmm : 50 * (m + 1) = 50 + 50 * m := by ring
    rw [hmm, List.take_add]
    congr 1
    rw [List.drop_drop]
    have hj2 : 50 * j + 50 = 50 * (j + 1) := by ring
    rw [hj2]

theorem runBatches_fail (failOn : Nat → Bool) (recs : List Record) (m : Nat)
    (h1 : ∀ i, i < m → failOn i = false) (h2 : failOn m = true)
    (h3 : 50 * m < recs.length) :
    runBatches failOn recs = ⟨recs.take (50 * m), m, m + 1, true⟩ := by
  rw [runBatches, runBatchesAux_fail failOn recs m ((recs.length + 49) / 50) 0
    (by simpa using h1) (by simpa using h2) (by omega)]
  simp

theorem runBatches_committed_take (failOn : Nat → Bool) (recs : List Record) :
    (runBatches failOn recs).committed =
      recs.take (50 * (runBatches failOn recs).commits) := by
  rw [runBatches, runBatchesAux_committed_eq]
  simp [runBatches]

theorem mem_of_mem_committed (failOn : Nat → Bool) (recs : List Record)
    (r : Record) (h : r ∈ (runBatches failOn recs).committed) : r ∈ recs := by
  rw [runBatches_committed_take] at h
  exact List.take_subset _ _ h

theorem runBatchesAux_indep (failOn : Nat → Bool) (r1 r2 : List Record) :
    ∀ n j, (runBatchesAux failOn r1 n j).failed = (runBatchesAux failOn r2 n j).failed ∧
      (runBatchesAux failOn r1 n j).commits = (runBatchesAux failOn r2 n j).commits ∧
      (runBatchesAux failOn r1 n j).attempts = (runBatchesAux failOn r2 n j).attempts := by
  intro n
  induction n with
  | zero => intro j; simp [runBatchesAux]
  | succ n ih =>
    intro j
    by_cases hf : failOn j
    · simp [runBatchesAux, hf]
    · have := ih (j + 1)
      simp only [runBatchesAux, hf, Bool.false_eq_true, if_false]
      exact ⟨this.1, by simp [this.2.1], by simp [this.2.2]⟩

theorem load_data_schema_err (parseDate : String → Option Nat) (run_id : String)
    (failOn : Nat → Bool) (csv : Csv) (h : missingCols csv ≠ []) :
    load_data parseDate run_id failOn csv =
      ⟨some (LoadErr.schemaMismatch (missingCols csv) (csv.headers.map normalizeHeader)),
       false, [], 0, 0, 0, ["Loading data from CSV", "Missing columns check"]⟩ := by
  have hne : (missingCols csv).isEmpty = false := by
    simpa [List.isEmpty_iff] using h
  simp [load_data, hne]

theorem load_data_empty (parseDate : String → Option Nat) (run_id : String)
    (failOn : Nat → Bool) (csv : Csv) (h : missingCols csv = [])
    (he : preparedRecords parseDate run_id csv = []) :
    load_data parseDate run_id failOn csv =
      ⟨none, false, [], 0, 0, 0,
       ["Loading data from CSV", "Missing columns check",
        "Prepared 0 records (first 50).", "No records to insert."]⟩ := by
  simp only [load_data, h, he, List.isEmpty_nil, if_true, List.length_nil]
  decide

theorem load_data_run (parseDate : String → Option Nat) (run_id : String)
    (failOn : Nat → Bool) (csv : Csv) (h : missingCols csv = [])
    (hne : preparedRecords parseDate run_id csv ≠ []) :
    load_data parseDate run_id failOn csv =
      ⟨(if (runBatches failOn (preparedRecords parseDate run_id csv)).failed then
          some LoadErr.insertError else none),
       true, (runBatches failOn (preparedRecords parseDate run_id csv)).committed,
       (preparedRecords parseDate run_id csv).length,
       (runBatches failOn (preparedRecords parseDate run_id csv)).commits,
       (runBatches failOn (preparedRecords parseDate run_id csv)).attempts,
       ["Loading data from CSV", "Missing columns check",
        "Prepared " ++ toString (preparedRecords parseDate run_id csv).length ++
          " records (first 50)."]⟩ := by
  have hne2 : (preparedRecords parseDate run_id csv).isEmpty = false := by
    simpa [List.isEmpty_iff] using hne
  simp [load_data, h, hne2]

theorem mem_inserted (parseDate : String → Option Nat) (run_id : String)
    (failOn : Nat → Bool) (csv : Csv) (r : Record)
    (h : r ∈ (load_data parseDate run_id failOn csv).inserted) :
    r ∈ preparedRecords parseDate run_id csv := by
  by_cases hm : missingCols csv = []
  · by_cases he : preparedRecords parseDate run_id csv = []
    · rw [load_data_empty parseDate run_id failOn csv hm he] at h
      simp at h
    · rw [load_data_run parseDate run_id failOn csv hm he] at h
      exact mem_of_mem_committed failOn _ r h
  · rw [load_data_schema_err parseDate run_id failOn csv hm] at h
    simp at h

theorem mem_prepared (parseDate : String → Option Nat) (run_id : String)
    (csv : Csv) (r : Record) (h : r ∈ preparedRecords parseDate run_id csv) :
    r ∈ cleanedRecords parseDate run_id csv ∧ r.customer_name ≠ "" ∧
      ∃ row ∈ csv.rows,
        r = transformRow parseDate run_id (csv.headers.map normalizeHeader) row := by
  have hc : r ∈ cleanedRecords parseDate run_id csv :=
    List.take_subset _ _ h
  have hf := (List.mem_filter).mp hc
  have hname : r.customer_name ≠ "" := by simpa using hf.2
  have hmap := List.mem_map.mp hf.1
  obtain ⟨row, hrow, hr⟩ := hmap
  exact ⟨hc, hname, row, hrow, hr.symm⟩

theorem cleaned_map_form (parseDate : String → Option Nat) (run_id : String)
    (csv : Csv) :
    cleanedRecords parseDate run_id csv =
      (csv.rows.filter (fun row =>
          strip (strOfCell (cellAt (csv.headers.map normalizeHeader) row
            "customer_name")) != "")).map
        (transformRow parseDate run_id (csv.headers.map normalizeHeader)) := by
  rw [cleanedRecords, allRecords, List.filter_map]
  rfl

theorem cleaned_length_indep (parseDate parseDate2 : String → Option Nat)
    (run_id : String) (csv : Csv) :
    (cleanedRecords parseDate run_id csv).length =
      (cleanedRecords parseDate2 run_id csv).length := by
  rw [cleaned_map_form, cleaned_map_form, List.length_map, List.length_map]

theorem load_data_error_indep (parseDate parseDate2 : String → Option Nat)
    (run_id : String) (failOn : Nat → Bool) (csv : Csv) :
    (load_data parseDate run_id failOn csv).error =
      (load_data parseDate2 run_id failOn csv).error := by
  by_cases hm : missingCols csv = []
  · have hlen : (preparedRecords parseDate run_id csv).length =
        (preparedRecords parseDate2 run_id csv).length := by
      rw [preparedRecords, preparedRecords, List.length_take, List.length_take,
        cleaned_length_indep parseDate parseDate2 run_id csv]
    by_cases he : preparedRecords parseDate run_id csv = []
    · have he2 : preparedRecords parseDate2 run_id csv = [] := by
        have : (preparedRecords parseDate2 run_id csv).length = 0 := by
          rw [← hlen, he]; rfl
        exact List.length_eq_zero.mp this
      rw [load_data_empty parseDate run_id failOn csv hm he,
        load_data_empty parseDate2 run_id failOn csv hm he2]
    · have he2 : preparedRecords parseDate2 run_id csv ≠ [] := by
        intro h0
        have : (preparedRecords parseDate run_id csv).length = 0 := by
          rw [hlen, h0]; rfl
        exact he (List.length_eq_zero.mp this)
      rw [load_data_run parseDate run_id failOn csv hm he,
        load_data_run parseDate2 run_id failOn csv hm he2]
      have hfail : (runBatches failOn (preparedRecords parseDate run_id csv)).failed =
          (runBatches failOn (preparedRecords parseDate2 run_id csv)).failed := by
        rw [runBatches, runBatches, hlen]
        exact (runBatchesAux_indep failOn _ _ _ _).1
      simp [hfail]
  · rw [load_data_schema_err parseDate run_id failOn csv hm,
      load_data_schema_err parseDate2 run_id failOn csv hm]

theorem prepared_run_id (parseDate : String → Option Nat) (run_id : String)
    (csv : Csv) (r : Record) (h : r ∈ preparedRecords parseDate run_id csv) :
    r.airflow_run_id = run_id := by
  obtain ⟨-, -, row, -, hr⟩ := mem_prepared parseDate run_id csv r h
  rw [hr]
  rfl

/-- C1: for every input the Loader inserts at most 50 records; the
prepared list is exactly the first 50, in original file order, of the
rows surviving cleaning (the cleaned list is an order-preserving
sublist of all transformed rows); and when at least 50 rows survive
cleaning and no insert fails, exactly the first 50 are loaded. -/
theorem cap_invariant (parseDate : String → Option Nat) (run_id : String)
    (failOn : Nat → Bool) (csv : Csv) :
    (load_data parseDate run_id failOn csv).inserted.length ≤ 50 ∧
    preparedRecords parseDate run_id csv =
      (cleanedRecords parseDate run_id csv).take 50 ∧
    List.Sublist (cleanedRecords parseDate run_id csv)
      (allRecords parseDate run_id csv) ∧
    (missingCols csv = [] →
      (load_data parseDate run_id noFail csv).inserted =
        (cleanedRecords parseDate run_id csv).take 50 ∧
      (50 ≤ (cleanedRecords parseDate run_id csv).length →
        (load_data parseDate run_id noFail csv).inserted.length = 50)) := by
  refine ⟨?_, rfl, List.filter_sublist _, ?_⟩
  · by_cases hm : missingCols csv = []
    · by_cases he : preparedRecords parseDate run_id csv = []
      · rw [load_data_empty parseDate run_id failOn csv hm he]
        simp
      · rw [load_data_run parseDate run_id failOn csv hm he]
        simp only
        rw [runBatches_committed_take]
        have h2 : (preparedRecords parseDate run_id csv).length ≤ 50 := by
          rw [preparedRecords, List.length_take]
          omega
        rw [List.length_take]
        omega
    · rw [load_data_schema_err parseDate run_id failOn csv hm]
      simp
  · intro hm
    by_cases he : preparedRecords parseDate run_id csv = []
    · have htake : (cleanedRecords parseDate run_id csv).take 50 = [] := he
      rw [load_data_empty parseDate run_id noFail csv hm he]
      refine ⟨by simp [htake], ?_⟩
      intro h50
      exfalso
      have hlen : ((cleanedRecords parseDate run_id csv).take 50).length = 0 := by
        rw [htake]; rfl
      rw [List.length_take] at hlen
      omega
    · rw [load_data_run parseDate run_id noFail csv hm he,
        runBatches_nofail (preparedRecords parseDate run_id csv)]
      refine ⟨rfl, ?_⟩
      intro h50
      simp only [preparedRecords]
      rw [List.length_take]
      omega

/-- Witness for C1 at a 51-row file: exactly 50 rows are loaded. -/
theorem cap_invariant_witness :
    (load_data noDate "run-1" noFail csv51).inserted.length = 50 :=
  ((cap_invariant noDate "run-1" noFail csv51).2.2.2 (by decide)).2 (by decide)

/-- C4: the batch loop of lines 94-105 works in fixed batches of 50
with a commit after each batch, so a failure of the insert on batch
k (1-indexed, here the 0-indexed batch index m = k - 1) leaves exactly
the rows of batches 1..k-1 durably committed and nothing of batch k or
later; the Loader's inserted rows are exactly what this loop commits. -/
theorem batch_failure_commits (failOn : Nat → Bool) (recs : List Record) (m : Nat)
    (h1 : ∀ i ∈ List.range m, failOn i = false) (h2 : failOn m = true)
    (h3 : 50 * m < recs.length) :
    (runBatches failOn recs).committed = recs.take (50 * m) ∧
    (runBatches failOn recs).commits = m ∧
    (runBatches failOn recs).failed = true ∧
    (∀ (parseDate : String → Option Nat) (run_id : String) (csv : Csv),
      missingCols csv = [] → preparedRecords parseDate run_id csv ≠ [] →
      (load_data parseDate run_id failOn csv).inserted =
        (runBatches failOn (preparedRecords parseDate run_id csv)).committed) := by
  have h1lt : ∀ i, i < m → failOn i = false := by
    intro i hi
    exact h1 i (List.mem_range.mpr hi)
  have hrb := runBatches_fail failOn recs m h1lt h2 h3
  rw [hrb]
  refine ⟨rfl, rfl, rfl, ?_⟩
  intro parseDate run_id csv hm hne
  rw [load_data_run parseDate run_id failOn csv hm hne]

/-- Witness for C4: on a 60-record list with the insert failing on the
second batch, exactly the first 50 records stay committed. -/
theorem batch_failure_commits_witness :
    (runBatches (fun j => j == 1) recs60).committed = recs60.take 50 ∧
    (runBatches (fun j => j == 1) recs60).commits = 1 ∧
    (runBatches (fun j => j == 1) recs60).failed = true := by
  have h := batch_failure_commits (fun j => j == 1) recs60 1
    (by decide) (by decide) (by decide)
  exact ⟨h.1, h.2.1, h.2.2.1⟩

/-- C6: if zero records remain after cleaning and capping, the Loader
returns successfully, opens no connection, runs no insert, and logs the
zero-record message. -/
theorem empty_input_noop (parseDate : String → Option Nat) (run_id : String)
    (failOn : Nat → Bool) (csv : Csv) (h : missingCols csv = [])
    (he : preparedRecords parseDate run_id csv = []) :
    (load_data parseDate run_id failOn csv).error = none ∧
    (load_data parseDate run_id failOn csv).connOpened = false ∧
    (load_data parseDate run_id failOn csv).inserted = [] ∧
    (load_data parseDate run_id failOn csv).batchAttempts = 0 ∧
    "No records to insert." ∈ (load_data parseDate run_id failOn csv).logs := by
  rw [load_data_empty parseDate run_id failOn csv h he]
  simp

/-- Witness for C6 at a header-only file. -/
theorem empty_input_noop_witness :
    (load_data noDate "run-1" noFail csvEmpty).error = none ∧
    (load_data noDate "run-1" noFail csvEmpty).connOpened = false ∧
    (load_data noDate "run-1" noFail csvEmpty).inserted = [] ∧
    (load_data noDate "run-1" noFail csvEmpty).batchAttempts = 0 ∧
    "No records to insert." ∈ (load_data noDate "run-1" noFail csvEmpty).logs :=
  empty_input_noop noDate "run-1" noFail csvEmpty (by decide) (by decide)

/-- C7: the Schema Ensurer is idempotent: a second run changes nothing,
executes no CREATE TABLE, and never alters an existing table; from an
empty catalog two runs leave exactly one table carrying the documented
schema. -/
theorem schema_ensurer_idempotent (cat : DbCatalog) :
    (create_table_if_missed (create_table_if_missed cat).1).1 =
      (create_table_if_missed cat).1 ∧
    (create_table_if_missed (create_table_if_missed cat).1).2 = 0 ∧
    (object_id cat TARGET_TABLE = true → create_table_if_missed cat = (cat, 0)) ∧
    object_id (create_table_if_missed cat).1 TARGET_TABLE = true ∧
    (create_table_if_missed (create_table_if_missed ⟨[]⟩).1).1.tables =
      [(TARGET_TABLE, targetSchema)] := by
  have hafter : object_id (create_table_if_missed cat).1 TARGET_TABLE = true := by
    by_cases hc : object_id cat TARGET_TABLE
    · rw [create_table_if_missed, if_pos hc]
      exact hc
    · rw [create_table_if_missed, if_neg hc]
      simp [object_id, List.any_append]
  have hsecond : create_table_if_missed (create_table_if_missed cat).1 =
      ((create_table_if_missed cat).1, 0) := by
    rw [create_table_if_missed, if_pos hafter]
  refine ⟨?_, ?_, ?_, hafter, by decide⟩
  · rw [hsecond]
  · rw [hsecond]
  · intro hc
    rw [create_table_if_missed, if_pos hc]

/-- Witness for C7: a catalog already holding the table is returned
unchanged with zero DDL statements executed. -/
theorem schema_ensurer_idempotent_witness :
    create_table_if_missed ⟨[(TARGET_TABLE, targetSchema)]⟩ =
      (⟨[(TARGET_TABLE, targetSchema)]⟩, 0) :=
  (schema_ensurer_idempotent ⟨[(TARGET_TABLE, targetSchema)]⟩).2.2.1 (by decide)

/-- C2: after header normalisation the Loader fails with a schema
mismatch if and only if some required column is absent (extra columns
ignored, order irrelevant); the error value carries exactly the missing
columns and the columns actually found; and on that error no connection
is opened and no row is inserted. -/
theorem schema_mismatch_iff (parseDate : String → Option Nat) (run_id : String)
    (failOn : Nat → Bool) (csv : Csv) :
    ((∃ m f, (load_data parseDate run_id failOn csv).error =
        some (LoadErr.schemaMismatch m f)) ↔ missingCols csv ≠ []) ∧
    (missingCols csv ≠ [] →
      (load_data parseDate run_id failOn csv).error =
        some (LoadErr.schemaMismatch (missingCols csv)
          (csv.headers.map normalizeHeader)) ∧
      (load_data parseDate run_id failOn csv).connOpened = false ∧
      (load_data parseDate run_id failOn csv).inserted = [] ∧
      (load_data parseDate run_id failOn csv).batchAttempts = 0) ∧
    (missingCols csv = [] ↔
      ∀ c ∈ expectedCols, c ∈ csv.headers.map normalizeHeader) ∧
    (∀ c, c ∈ missingCols csv ↔
      c ∈ expectedCols ∧ c ∉ csv.headers.map normalizeHeader) := by
  have herr : missingCols csv ≠ [] →
      (load_data parseDate run_id failOn csv).error =
        some (LoadErr.schemaMismatch (missingCols csv)
          (csv.headers.map normalizeHeader)) ∧
      (load_data parseDate run_id failOn csv).connOpened = false ∧
      (load_data parseDate run_id failOn csv).inserted = [] ∧
      (load_data parseDate run_id failOn csv).batchAttempts = 0 := by
    intro hm
    rw [load_data_schema_err parseDate run_id failOn csv hm]
    exact ⟨rfl, rfl, rfl, rfl⟩
  refine ⟨?_, herr, ?_, ?_⟩
  · constructor
    · rintro ⟨m, f, hmf⟩ hm
      by_cases he : preparedRecords parseDate run_id csv = []
      · rw [load_data_empty parseDate run_id failOn csv hm he] at hmf
        simp at hmf
      · rw [load_data_run parseDate run_id failOn csv hm he] at hmf
        by_cases hfail :
            (runBatches failOn (preparedRecords parseDate run_id csv)).failed
        · simp [hfail] at hmf
        · simp [hfail] at hmf
    · intro hm
      exact ⟨missingCols csv, csv.headers.map normalizeHeader, (herr hm).1⟩
  · rw [missingCols, List.filter_eq_nil_iff]
    constructor
    · intro h c hc
      have := h c hc
      simpa [List.elem_iff] using this
    · intro h c hc
      simpa [List.elem_iff] using h c hc
  · intro c
    rw [missingCols, List.mem_filter]
    constructor
    · rintro ⟨h1, h2⟩
      refine ⟨h1, fun hmem => ?_⟩
      have hc : (List.map normalizeHeader csv.headers).contains c = true :=
        List.elem_iff.mpr hmem
      rw [Bool.not_eq_eq_eq_not, Bool.not_true] at h2
      rw [h2] at hc
      exact Bool.false_ne_true hc
    · rintro ⟨h1, h2⟩
      refine ⟨h1, ?_⟩
      simpa [List.elem_iff] using h2

/-- Witness for C2 at a file whose header omits birth_date. -/
theorem schema_mismatch_iff_witness :
    (load_data noDate "run-1" noFail csvNoBirth).error =
      some (LoadErr.schemaMismatch ["birth_date"] ["customer_name", "address"]) ∧
    (load_data noDate "run-1" noFail csvNoBirth).connOpened = false ∧
    (load_data noDate "run-1" noFail csvNoBirth).inserted = [] := by
  have h := (schema_mismatch_iff noDate "run-1" noFail csvNoBirth).2.1 (by decide)
  have hmiss : missingCols csvNoBirth = ["birth_date"] := by decide
  have hfound : csvNoBirth.headers.map normalizeHeader =
      ["customer_name", "address"] := by decide
  exact ⟨by rw [h.1, hmiss, hfound], h.2.1, h.2.2.1⟩

/-- C3: rows whose customer_name strips to the empty string are
silently dropped: they never reach the cleaned list or the destination,
every inserted row has a non-empty stripped customer_name, the drop is
not an error, and the reported record count is the count of surviving
(capped) rows only. -/
theorem drop_invariant (parseDate : String → Option Nat) (run_id : String)
    (failOn : Nat → Bool) (csv : Csv) (r : Record) :
    (r.customer_name = "" →
      r ∉ cleanedRecords parseDate run_id csv ∧
      r ∉ (load_data parseDate run_id failOn csv).inserted) ∧
    (∀ s ∈ (load_data parseDate run_id failOn csv).inserted,
      s.customer_name ≠ "") ∧
    (missingCols csv = [] →
      (load_data parseDate run_id noFail csv).error = none ∧
      (load_data parseDate run_id failOn csv).reportedCount =
        (preparedRecords parseDate run_id csv).length) := by
  have hmemname : ∀ s ∈ (load_data parseDate run_id failOn csv).inserted,
      s.customer_name ≠ "" := by
    intro s hs
    exact (mem_prepared parseDate run_id csv s
      (mem_inserted parseDate run_id failOn csv s hs)).2.1
  refine ⟨?_, hmemname, ?_⟩
  · intro hr
    constructor
    · intro hmem
      have := (List.mem_filter.mp hmem).2
      rw [hr] at this
      simp at this
    · intro hmem
      exact hmemname r hmem hr
  · intro hm
    constructor
    · by_cases he : preparedRecords parseDate run_id csv = []
      · rw [load_data_empty parseDate run_id noFail csv hm he]
      · rw [load_data_run parseDate run_id noFail csv hm he,
          runBatches_nofail (preparedRecords parseDate run_id csv)]
        simp
    · by_cases he : preparedRecords parseDate run_id csv = []
      · rw [load_data_empty parseDate run_id failOn csv hm he, he]
        rfl
      · rw [load_data_run parseDate run_id failOn csv hm he]

/-- Witness for C3: a record with empty name is absent from a cleaned
list, and a run over a file with data is still error-free. -/
theorem drop_invariant_witness :
    (Record.mk "" none none "run-1") ∉ cleanedRecords noDate "run-1" csvNan ∧
    (load_data noDate "run-1" noFail csvNan).error = none :=
  ⟨((drop_invariant noDate "run-1" noFail csvNan ⟨"", none, none, "run-1"⟩).1
      rfl).1,
   ((drop_invariant noDate "run-1" noFail csvNan ⟨"", none, none, "run-1"⟩).2.2
      (by decide)).1⟩

/-- C5: an unparseable or absent birth_date becomes a null, never an
error: the Loader's error outcome does not depend on the date parser at
all, a row whose birth_date fails to parse is prepared with
birth_date = none, and with a parser that fails on everything every
inserted row has a null birth_date. -/
theorem birth_date_null_coercion (parseDate parseDate2 : String → Option Nat)
    (run_id : String) (failOn : Nat → Bool) (csv : Csv)
    (hs : List String) (row : List (Option String)) (s : String) :
    ((load_data parseDate run_id failOn csv).error =
      (load_data parseDate2 run_id failOn csv).error) ∧
    (cellAt hs row "birth_date" = some s → parseDate s = none →
      (transformRow parseDate run_id hs row).birth_date = none) ∧
    (cellAt hs row "birth_date" = none →
      (transformRow parseDate run_id hs row).birth_date = none) ∧
    (∀ r ∈ (load_data noDate run_id failOn csv).inserted,
      r.birth_date = none) := by
  refine ⟨load_data_error_indep parseDate parseDate2 run_id failOn csv,
    ?_, ?_, ?_⟩
  · intro hcell hp
    simp [transformRow, hcell, hp]
  · intro hcell
    simp [transformRow, hcell]
  · intro r hr
    obtain ⟨-, -, row2, -, hr2⟩ := mem_prepared noDate run_id csv r
      (mem_inserted noDate run_id failOn csv r hr)
    rw [hr2]
    simp [transformRow, noDate]

/-- Witness for C5 at a row with an unparseable birth_date value. -/
theorem birth_date_null_coercion_witness :
    (transformRow noDate "run-1" okHeaders
      [none, some "b", some "not-a-date"]).birth_date = none :=
  (birth_date_null_coercion noDate noDate "run-1" noFail csvNan okHeaders
    [none, some "b", some "not-a-date"] "not-a-date").2.1 (by decide) rfl

/-- C8: every row inserted during a run carries that run's identifier
as its airflow_run_id field, and no row prepared under a different
identifier carries it. -/
theorem run_tag_propagation (parseDate : String → Option Nat)
    (run_id run_id2 : String) (failOn failOn2 : Nat → Bool) (csv csv2 : Csv) :
    (∀ r ∈ (load_data parseDate run_id failOn csv).inserted,
      r.airflow_run_id = run_id) ∧
    (run_id2 ≠ run_id →
      ∀ r ∈ (load_data parseDate run_id2 failOn2 csv2).inserted,
        r.airflow_run_id ≠ run_id) := by
  constructor
  · intro r hr
    exact prepared_run_id parseDate run_id csv r
      (mem_inserted parseDate run_id failOn csv r hr)
  · intro hne r hr
    rw [prepared_run_id parseDate run_id2 csv2 r
      (mem_inserted parseDate run_id2 failOn2 csv2 r hr)]
    exact hne

/-- Witness for C8: rows of a run tagged run-2 never carry run-1. -/
theorem run_tag_propagation_witness :
    ∀ r ∈ (load_data noDate "run-2" noFail csvNan).inserted,
      r.airflow_run_id ≠ "run-1" :=
  (run_tag_propagation noDate "run-1" "run-2" noFail noFail csvNan csvNan).2
    (by decide)

/-- C9: a missing (NaN) customer_name is stringified to the literal
"nan" before stripping, so the row is not dropped by the empty-name
filter, and when it is within the cap and inserts succeed it is loaded
with customer_name equal to the string "nan". -/
theorem nan_name_not_dropped (parseDate : String → Option Nat) (run_id : String)
    (csv : Csv) (row : List (Option String))
    (hcell : cellAt (csv.headers.map normalizeHeader) row "customer_name" = none)
    (hrow : row ∈ csv.rows) :
    (transformRow parseDate run_id (csv.headers.map normalizeHeader)
      row).customer_name = "nan" ∧
    transformRow parseDate run_id (csv.headers.map normalizeHeader) row ∈
      cleanedRecords parseDate run_id csv ∧
    (missingCols csv = [] →
      (cleanedRecords parseDate run_id csv).length ≤ 50 →
      transformRow parseDate run_id (csv.headers.map normalizeHeader) row ∈
        (load_data parseDate run_id noFail csv).inserted) := by
  have hname : (transformRow parseDate run_id (csv.headers.map normalizeHeader)
      row).customer_name = "nan" := by
    simp only [transformRow, hcell]
    decide
  have hmem : transformRow parseDate run_id (csv.headers.map normalizeHeader) row ∈
      cleanedRecords parseDate run_id csv := by
    rw [cleanedRecords]
    refine List.mem_filter.mpr ⟨?_, ?_⟩
    · exact List.mem_map.mpr ⟨row, hrow, rfl⟩
    · rw [hname]
      decide
  refine ⟨hname, hmem, ?_⟩
  intro hm hlen
  have hprep : preparedRecords parseDate run_id csv =
      cleanedRecords parseDate run_id csv := by
    rw [preparedRecords]
    exact List.take_of_length_le hlen
  have hne : preparedRecords parseDate run_id csv ≠ [] := by
    rw [hprep]
    intro h0
    rw [h0] at hmem
    simp at hmem
  rw [load_data_run parseDate run_id noFail csv hm hne,
    runBatches_nofail (preparedRecords parseDate run_id csv)]
  rw [hprep]
  exact hmem

/-- Witness for C9: the NaN-name row of a one-row file is loaded with
customer_name "nan". -/
theorem nan_name_not_dropped_witness :
    transformRow noDate "run-1"
        (csvNan.headers.map normalizeHeader) [none, some "b", some "not-a-date"] ∈
      (load_data noDate "run-1" noFail csvNan).inserted :=
  (nan_name_not_dropped noDate "run-1" csvNan [none, some "b", some "not-a-date"]
    (by decide) (by decide)).2.2 (by decide) (by decide)

/-- C10: since the cap (first 50 after cleaning) equals the batch size
(50), every run executes the batch-loop body at most once and commits
at most once, whatever the input file and failure pattern. -/
theorem single_batch_invariant (parseDate : String → Option Nat) (run_id : String)
    (failOn : Nat → Bool) (csv : Csv) :
    (load_data parseDate run_id failOn csv).batchAttempts ≤ 1 ∧
    (load_data parseDate run_id failOn csv).commits ≤ 1 ∧
    (preparedRecords parseDate run_id csv).length ≤ 50 := by
  have hlen : (preparedRecords parseDate run_id csv).length ≤ 50 := by
    rw [preparedRecords, List.length_take]
    omega
  by_cases hm : missingCols csv = []
  · by_cases he : preparedRecords parseDate run_id csv = []
    · rw [load_data_empty parseDate run_id failOn csv hm he]
      exact ⟨by simp, by simp, hlen⟩
    · rw [load_data_run parseDate run_id failOn csv hm he]
      have hb := runBatchesAux_bounds failOn (preparedRecords parseDate run_id csv)
        (((preparedRecords parseDate run_id csv).length + 49) / 50) 0
      have hn : ((preparedRecords parseDate run_id csv).length + 49) / 50 ≤ 1 := by
        omega
      refine ⟨?_, ?_, hlen⟩
      · simp only [runBatches]
        omega
      · simp only [runBatches]
        omega
  · rw [load_data_schema_err parseDate run_id failOn csv hm]
    exact ⟨by simp, by simp, hlen⟩

end ETL

